import Mathlib

/-!
Verification of the compute-to-present pipeline of a Mandelbrot renderer.

The embedding follows the Rust sources `computer.rs`, `renderer.rs`,
`app.rs` and `main.rs`.  Rust `f32` scalars are modelled as exact
rationals (`ℚ`): every arithmetic operation the viewport code performs
(addition, subtraction, multiplication by the literals 0.5, 2.0 and the
pan-speed) is mapped to the corresponding exact operation.  Rust `u32`
values are modelled as `Nat` together with explicit wrapping modulo
2^32 at the operations where the source performs machine arithmetic
(release-mode wrapping semantics).  GPU objects (textures, queues,
surfaces) are modelled by explicit state records, and queue submission
by appending to a submission list, so that submission order is the list
order.
-/

/-- Wrap-around modulus of the Rust `u32` type. -/
def U32_MOD : Nat := 4294967296

/-- Release-mode Rust `u32` addition (wraps modulo 2^32). -/
def wrapping_add (a b : Nat) : Nat := (a + b) % U32_MOD

/-- Release-mode Rust `u32` subtraction (wraps modulo 2^32); both operands
are assumed already reduced below 2^32, which holds everywhere it is used. -/
def wrapping_sub (a b : Nat) : Nat := (a + U32_MOD - b % U32_MOD) % U32_MOD

/-- `math::UVec2`: a pair of `u32` components. -/
structure UVec2 where
  x : Nat
  y : Nat
deriving DecidableEq, Repr

/-- `math::FVec2`: a pair of `f32` components, modelled exactly over `ℚ`. -/
structure FVec2 where
  x : ℚ
  y : ℚ
deriving DecidableEq, Repr

/-- `computer.rs`, `compute_work_group_count`: dispatch grid for an
image of the given dimensions and the given workgroup (block) size.
The source computes `(width + workgroup_width - 1) / workgroup_width`
in `u32` arithmetic, so the intermediate sum wraps modulo 2^32. -/
def compute_work_group_count (wh : Nat × Nat) (wgwh : Nat × Nat) : Nat × Nat :=
  let x := wrapping_sub (wrapping_add wh.1 wgwh.1) 1 / wgwh.1
  let y := wrapping_sub (wrapping_add wh.2 wgwh.2) 1 / wgwh.2
  (x, y)

/-- `computer.rs`, `struct SampleLocation`. -/
structure SampleLocation where
  position : FVec2
  zoom : ℚ
  move_speed : ℚ
deriving DecidableEq, Repr

/-- `impl Default for SampleLocation`: origin, zoom 1.0, move speed 0.05. -/
def SampleLocation.default : SampleLocation :=
  { position := { x := 0, y := 0 }, zoom := 1, move_speed := 0.05 }

/-- `computer.rs`, `struct MandelbrotParams` (field values; the byte-level
`repr(C)` layout is modelled separately below). -/
structure MandelbrotParams where
  x_min : ℚ
  x_max : ℚ
  y_min : ℚ
  y_max : ℚ
  max_iterations : Int
deriving DecidableEq, Repr

/-- `SampleLocation::to_mandlebrot_params`: bounds are `position ± zoom`
on each axis; the iteration cap is passed through.  The receiver is a
shared borrow (`&self`) in the source, so the call cannot mutate the
state; the embedding reflects this by not returning a state. -/
def SampleLocation.to_mandlebrot_params (s : SampleLocation)
    (max_iterations : Int) : MandelbrotParams :=
  let x_min := s.position.x - s.zoom
  let x_max := s.position.x + s.zoom
  let y_min := s.position.y - s.zoom
  let y_max := s.position.y + s.zoom
  { x_min := x_min, x_max := x_max, y_min := y_min, y_max := y_max,
    max_iterations := max_iterations }

/-- `SampleLocation::left`. -/
def SampleLocation.left (s : SampleLocation) : SampleLocation :=
  { s with position := { s.position with x := s.position.x - s.zoom * s.move_speed } }

/-- `SampleLocation::right`. -/
def SampleLocation.right (s : SampleLocation) : SampleLocation :=
  { s with position := { s.position with x := s.position.x + s.zoom * s.move_speed } }

/-- `SampleLocation::up`. -/
def SampleLocation.up (s : SampleLocation) : SampleLocation :=
  { s with position := { s.position with y := s.position.y - s.zoom * s.move_speed } }

/-- `SampleLocation::down`. -/
def SampleLocation.down (s : SampleLocation) : SampleLocation :=
  { s with position := { s.position with y := s.position.y + s.zoom * s.move_speed } }

/-- `SampleLocation::zoom_in`: halves the zoom (all reachable zoom values
are powers of two, for which multiplication by 0.5 is exact in `f32` as
well as in `ℚ`, away from the subnormal underflow threshold). -/
def SampleLocation.zoom_in (s : SampleLocation) : SampleLocation :=
  { s with zoom := s.zoom * 0.5 }

/-- `SampleLocation::zoom_out`: doubles the zoom. -/
def SampleLocation.zoom_out (s : SampleLocation) : SampleLocation :=
  { s with zoom := s.zoom * 2.0 }

/-! ### Byte layout of `MandelbrotParams` (`#[repr(C)]`) -/

/-- Scalar field types occurring in `MandelbrotParams`. -/
inductive ScalarTy
  | f32
  | i32
deriving DecidableEq, Repr

/-- Size in bytes of a scalar type (both `f32` and `i32` are 4 bytes). -/
def ScalarTy.size : ScalarTy → Nat := fun _ => 4

/-- Alignment in bytes of a scalar type. -/
def ScalarTy.alignment : ScalarTy → Nat := fun _ => 4

/-- A named field of a `repr(C)` struct. -/
structure FieldDesc where
  name : String
  ty : ScalarTy
deriving DecidableEq, Repr

/-- The fields of `computer.rs`, `struct MandelbrotParams`, in declaration
order. -/
def mandelbrotParamsFields : List FieldDesc :=
  [ { name := "x_min", ty := ScalarTy.f32 },
    { name := "x_max", ty := ScalarTy.f32 },
    { name := "y_min", ty := ScalarTy.f32 },
    { name := "y_max", ty := ScalarTy.f32 },
    { name := "max_iterations", ty := ScalarTy.i32 } ]

/-- Round `off` up to the next multiple of `a`. -/
def alignUp (off a : Nat) : Nat := (off + a - 1) / a * a

/-- Field offsets assigned by the C (`repr(C)`) struct layout algorithm,
starting at offset `off`: each field is placed at the next multiple of its
alignment. -/
def reprCOffsets : Nat → List FieldDesc → List Nat
  | _, [] => []
  | off, f :: fs =>
    let o := alignUp off f.ty.alignment
    o :: reprCOffsets (o + f.ty.size) fs

/-- Offset just past the last field under the C layout algorithm. -/
def reprCEnd : Nat → List FieldDesc → Nat
  | off, [] => off
  | off, f :: fs => reprCEnd (alignUp off f.ty.alignment + f.ty.size) fs

/-- Alignment of a `repr(C)` struct: the maximum field alignment. -/
def maxAlign (fs : List FieldDesc) : Nat :=
  fs.foldl (fun m f => max m f.ty.alignment) 1

/-- Total size of a `repr(C)` struct: the end offset rounded up to the
struct alignment (this is the length of `bytemuck::bytes_of`). -/
def reprCSize (fs : List FieldDesc) : Nat := alignUp (reprCEnd 0 fs) (maxAlign fs)

/-- Byte length of the uniform parameter block `Computer::run` builds with
`bytemuck::bytes_of(mandelbot_params)`. -/
def mandelbrotParamsSize : Nat := reprCSize mandelbrotParamsFields

/-! ### GPU state, compute pass and render pass -/

/-- A command submission on the device queue: either the compute pass of
`Computer::run` (which writes the output texture, identified by id, with
the dispatch grid and the uniform parameter block it binds) or the render
pass of `Renderer::render` (which reads the texture it samples). -/
inductive Submission
  | computePass (writesTex : Nat) (grid : Nat × Nat) (params : MandelbrotParams)
      (paramsSize : Nat)
  | renderPass (readsTex : Nat)
deriving DecidableEq, Repr

/-- Does this submission write the texture `tex`?  Only a compute pass
writes a (non-surface) texture; the render pass samples its input and
writes only to the acquired surface image. -/
def Submission.writesTo (s : Submission) (tex : Nat) : Bool :=
  match s with
  | Submission.computePass t _ _ _ => t == tex
  | Submission.renderPass _ => false

/-- The state of `gpu_interface::GPUInterface` as used by the code under
verification: the stored window size (`gpu.size`), the surface
configuration dimensions (`gpu.config.width/height`), a count of
`surface.configure` calls, and the device queue, modelled as the ordered
list of submissions (`queue.submit` appends). -/
structure GPUInterface where
  size : UVec2
  configWidth : Nat
  configHeight : Nat
  configureCount : Nat
  queue : List Submission
deriving DecidableEq, Repr

/-- Modelled from the spec: `GPUInterface::new` (its source file is not
under `src/`) configures the surface to the startup dimensions and starts
with an empty device queue. -/
def GPUInterface.new (size : UVec2) : GPUInterface :=
  { size := size, configWidth := size.x, configHeight := size.y,
    configureCount := 0, queue := [] }

/-- `computer.rs`, `struct Computer`: the compute pipeline (opaque), the
output texture (modelled by its id) and the stored texture size. -/
structure Computer where
  output_texture : Nat
  texture_size : UVec2
deriving DecidableEq, Repr

/-- `Computer::new`: creates the output texture sized to `size` and stores
`texture_size = size`.  The single texture created at startup gets id 0. -/
def Computer.new (size : UVec2) : Computer :=
  { output_texture := 0, texture_size := size }

/-- `Computer::run`: builds the uniform parameter block from
`mandelbot_params`, computes the dispatch grid from the stored
`texture_size` with block size (16,16), records one compute pass and
submits it to the device queue, and returns the output texture handle.
The receiver is `&self`, so the `Computer` state cannot change. -/
def Computer.run (c : Computer) (gpu : GPUInterface)
    (mandelbot_params : MandelbrotParams) : GPUInterface × Nat :=
  let dispatch := compute_work_group_count (c.texture_size.x, c.texture_size.y) (16, 16)
  ({ gpu with
      queue := gpu.queue ++
        [Submission.computePass c.output_texture dispatch mandelbot_params
          mandelbrotParamsSize] },
   c.output_texture)

/-- `wgpu::SurfaceError`: reasons surface acquisition can fail. -/
inductive SurfaceError
  | Timeout
  | Outdated
  | Lost
  | OutOfMemory
deriving DecidableEq, Repr

/-- Result of running code that may panic (Rust `unwrap` on an error). -/
inductive PanicOr (α : Type) where
  | ok (a : α)
  | panicked
deriving DecidableEq, Repr

/-- `renderer.rs`, `struct Renderer`: the pipeline, geometry buffers and
sampler are opaque startup-fixed objects; the mutable state the claims
concern is the stored `size`. -/
structure Renderer where
  size : UVec2
deriving DecidableEq, Repr

/-- `Renderer::new`: stores the startup size. -/
def Renderer.new (size : UVec2) : Renderer :=
  { size := size }

/-- `Renderer::resize`: when both dimensions are positive, updates
`gpu.size`, `gpu.config.width/height`, reconfigures the surface and
stores the new size; otherwise does nothing. -/
def Renderer.resize (r : Renderer) (new_size : UVec2) (gpu : GPUInterface) :
    Renderer × GPUInterface :=
  if 0 < new_size.x ∧ 0 < new_size.y then
    ({ r with size := { x := new_size.x, y := new_size.y } },
     { gpu with
        size := new_size,
        configWidth := new_size.x,
        configHeight := new_size.y,
        configureCount := gpu.configureCount + 1 })
  else (r, gpu)

/-- `Renderer::render`: the source begins with
`gpu.surface.get_current_texture().unwrap()`, so an acquisition failure
panics the process (modelled by `PanicOr.panicked`); on success it records
one render pass reading `mandelbrot_texture`, submits it to the device
queue, presents, and returns `Ok(())`.  `acq` is the result surface
acquisition would produce this frame. -/
def Renderer.render (_r : Renderer) (gpu : GPUInterface)
    (acq : Except SurfaceError Unit) (mandelbrot_texture : Nat) :
    PanicOr (GPUInterface × Except SurfaceError Unit) :=
  match acq with
  | Except.error _ => PanicOr.panicked
  | Except.ok _ =>
    PanicOr.ok
      ({ gpu with queue := gpu.queue ++ [Submission.renderPass mandelbrot_texture] },
       Except.ok ())

/-! ### Application state and the event loop (`app.rs`, `main.rs`) -/

/-- `app.rs`, `struct App`. -/
structure App where
  gpu : GPUInterface
  computer : Computer
  renderer : Renderer
  sample_location : SampleLocation
deriving DecidableEq, Repr

/-- `App::new`: creates the GPU interface, the computer and the renderer at
the startup size, and the default sample location. -/
def App.new (size : UVec2) : App :=
  { gpu := GPUInterface.new size,
    computer := Computer.new size,
    renderer := Renderer.new size,
    sample_location := SampleLocation.default }

/-- The key presses `App::handle_event` reacts to. -/
inductive KeyPress
  | arrowLeft
  | arrowRight
  | arrowUp
  | arrowDown
  | numpadAdd
  | numpadSub
deriving DecidableEq, Repr

/-- `App::handle_event` on a pressed key: dispatches to the matching
`SampleLocation` operation (key releases and other events do nothing). -/
def App.handle_event (app : App) (k : KeyPress) : App :=
  match k with
  | KeyPress.arrowLeft => { app with sample_location := app.sample_location.left }
  | KeyPress.arrowRight => { app with sample_location := app.sample_location.right }
  | KeyPress.arrowUp => { app with sample_location := app.sample_location.up }
  | KeyPress.arrowDown => { app with sample_location := app.sample_location.down }
  | KeyPress.numpadAdd => { app with sample_location := app.sample_location.zoom_in }
  | KeyPress.numpadSub => { app with sample_location := app.sample_location.zoom_out }

/-- `main.rs`, the `RedrawRequested` arm: runs the computer on the current
mandelbrot parameters (iteration cap 180), then renders the returned
texture, and handles the render result (`Lost` reconfigures at the current
size, `OutOfMemory` exits, other errors are only logged).  `acq` is the
result surface acquisition produces inside `Renderer::render`. -/
def App.redrawRequested (app : App) (acq : Except SurfaceError Unit) : PanicOr App :=
  let rg := app.computer.run app.gpu (app.sample_location.to_mandlebrot_params 180)
  let app1 : App := { app with gpu := rg.1 }
  match app1.renderer.render app1.gpu acq rg.2 with
  | PanicOr.panicked => PanicOr.panicked
  | PanicOr.ok (g2, res) =>
    let app2 : App := { app1 with gpu := g2 }
    match res with
    | Except.ok _ => PanicOr.ok app2
    | Except.error SurfaceError.Lost =>
      let rg2 := app2.renderer.resize app2.gpu.size app2.gpu
      PanicOr.ok { app2 with renderer := rg2.1, gpu := rg2.2 }
    | Except.error SurfaceError.OutOfMemory => PanicOr.ok app2
    | Except.error _ => PanicOr.ok app2

/-- One event processed by the `main.rs` event loop: a pressed key, a
window resize (the `Resized` arm calls `Renderer::resize`), or a redraw
request.  For a redraw, `acqOk` tells whether surface acquisition succeeds
this frame. -/
inductive AppOp
  | key (k : KeyPress)
  | resized (ns : UVec2)
  | redraw (acqOk : Bool)
deriving DecidableEq, Repr

/-- One step of the event loop.  On a redraw whose surface acquisition
fails, the process panics inside `Renderer::render` after the compute pass
was already submitted; the state reached at that point (compute submission
queued, everything else untouched) is kept so that invariants can be
stated about every state the process ever reaches. -/
def App.stepOp (app : App) (op : AppOp) : App :=
  match op with
  | AppOp.key k => app.handle_event k
  | AppOp.resized ns =>
    let rg := app.renderer.resize ns app.gpu
    { app with renderer := rg.1, gpu := rg.2 }
  | AppOp.redraw acqOk =>
    match app.redrawRequested (if acqOk then Except.ok () else Except.error SurfaceError.Lost) with
    | PanicOr.ok a => a
    | PanicOr.panicked =>
      { app with
          gpu := (app.computer.run app.gpu
            (app.sample_location.to_mandlebrot_params 180)).1 }

/-- The event loop folded over a list of events. -/
def App.runOps (app : App) (ops : List AppOp) : App :=
  ops.foldl App.stepOp app

/-- The six public mutating operations of `SampleLocation`. -/
inductive SampleOp
  | left
  | right
  | up
  | down
  | zoom_in
  | zoom_out
deriving DecidableEq, Repr

/-- Apply one public `SampleLocation` operation. -/
def SampleLocation.applyOp (s : SampleLocation) : SampleOp → SampleLocation
  | SampleOp.left => s.left
  | SampleOp.right => s.right
  | SampleOp.up => s.up
  | SampleOp.down => s.down
  | SampleOp.zoom_in => s.zoom_in
  | SampleOp.zoom_out => s.zoom_out

/-- Apply a sequence of public `SampleLocation` operations. -/
def SampleLocation.applyOps (s : SampleLocation) (ops : List SampleOp) : SampleLocation :=
  ops.foldl SampleLocation.applyOp s

/-! ## Theorems -/

/-- Claim C1, counterexample to the universally quantified statement: at
width 4294967281 (= 2^32 − 15) and height 16, both positive, the `u32`
sum `width + 16` wraps, the code returns grid x-component 0, which is not
`ceil(width/16) = 268435456` and does not cover the image. -/
theorem C1_counterexample :
    0 < 4294967281 ∧ 0 < 16 ∧
    compute_work_group_count (4294967281, 16) (16, 16) = (0, 1) ∧
    (4294967281 + 16 - 1) / 16 = 268435456 ∧
    ¬ 4294967281 ≤ (compute_work_group_count (4294967281, 16) (16, 16)).1 * 16 := by
  refine ⟨by norm_num, by norm_num, ?_, by norm_num, ?_⟩ <;>
    simp [compute_work_group_count, wrapping_add, wrapping_sub, U32_MOD]

/-- Claim C1 (amended with the no-`u32`-overflow bound `width + 15 < 2^32`,
`height + 15 < 2^32`): for positive dimensions in range,
`compute_work_group_count((w,h),(16,16))` is exactly
`(ceil(w/16), ceil(h/16))`, this grid covers the image, and it is minimal:
the grid one smaller in either coordinate no longer covers. -/
theorem C1_work_group_count_correct (w h : Nat) (hw : 0 < w) (hh : 0 < h)
    (hw32 : w + 15 < 2 ^ 32) (hh32 : h + 15 < 2 ^ 32) :
    compute_work_group_count (w, h) (16, 16) = ((w + 15) / 16, (h + 15) / 16) ∧
    w ≤ (w + 15) / 16 * 16 ∧ h ≤ (h + 15) / 16 * 16 ∧
    ((w + 15) / 16 - 1) * 16 < w ∧ ((h + 15) / 16 - 1) * 16 < h := by
  have hw' : w + 15 < 4294967296 := by norm_num at hw32; exact hw32
  have hh' : h + 15 < 4294967296 := by norm_num at hh32; exact hh32
  refine ⟨?_, by omega, by omega, by omega, by omega⟩
  simp only [compute_work_group_count, wrapping_add, wrapping_sub, U32_MOD,
    Prod.mk.injEq]
  constructor <;> omega

/-- Witness for C1 at the 1000×1000 scenario from the spec: the grid is
(63, 63), the ceiling of 1000/16. -/
theorem C1_work_group_count_correct_witness :
    0 < 1000 ∧ 0 < 1000 ∧ 1000 + 15 < 2 ^ 32 ∧ 1000 + 15 < 2 ^ 32 ∧
    (compute_work_group_count (1000, 1000) (16, 16) =
      ((1000 + 15) / 16, (1000 + 15) / 16) ∧
     1000 ≤ (1000 + 15) / 16 * 16 ∧ 1000 ≤ (1000 + 15) / 16 * 16 ∧
     ((1000 + 15) / 16 - 1) * 16 < 1000 ∧ ((1000 + 15) / 16 - 1) * 16 < 1000) :=
  ⟨by norm_num, by norm_num, by norm_num, by norm_num,
   C1_work_group_count_correct 1000 1000 (by norm_num) (by norm_num)
     (by norm_num) (by norm_num)⟩

/-- Claim C2: for every `SampleLocation` state and every iteration cap,
`to_mandlebrot_params` returns exactly the record
`{x_min = position.x − zoom, x_max = position.x + zoom,
y_min = position.y − zoom, y_max = position.y + zoom, max_iterations}`.
The receiver is a shared borrow in the source, which the embedding
reflects by returning no state, so the call has no side effect; two calls
without an intervening mutation are calls on the same state and therefore
return identical results (second conjunct). -/
theorem C2_to_mandlebrot_params_exact (s : SampleLocation) (m : Int) :
    s.to_mandlebrot_params m =
      { x_min := s.position.x - s.zoom, x_max := s.position.x + s.zoom,
        y_min := s.position.y - s.zoom, y_max := s.position.y + s.zoom,
        max_iterations := m } ∧
    s.to_mandlebrot_params m = s.to_mandlebrot_params m :=
  ⟨rfl, rfl⟩

theorem zoom_pos_of_applyOp (s : SampleLocation) (op : SampleOp)
    (h : 0 < s.zoom) : 0 < (s.applyOp op).zoom := by
  cases op <;>
    simp [SampleLocation.applyOp, SampleLocation.left, SampleLocation.right,
      SampleLocation.up, SampleLocation.down, SampleLocation.zoom_in,
      SampleLocation.zoom_out] <;> positivity

theorem zoom_pos_of_applyOps (ops : List SampleOp) :
    ∀ s : SampleLocation, 0 < s.zoom → 0 < (s.applyOps ops).zoom := by
  induction ops with
  | nil => intro s h; exact h
  | cons op ops ih =>
    intro s h
    exact ih (s.applyOp op) (zoom_pos_of_applyOp s op h)

/-- Claim C5: `zoom > 0` holds in the initial state (`zoom = 1`) and is
preserved by every public operation, so every state reachable from the
default state by a sequence of `left/right/up/down/zoom_in/zoom_out`
operations has strictly positive zoom. -/
theorem C5_zoom_positive_invariant (ops : List SampleOp) :
    0 < (SampleLocation.default.applyOps ops).zoom :=
  zoom_pos_of_applyOps ops SampleLocation.default
    (by norm_num [SampleLocation.default])

/-- Claim C6: `zoom_in` (multiply zoom by 0.5) followed by `zoom_out`
(multiply zoom by 2.0) restores the zoom exactly, for every state: in the
exact-arithmetic model of `f32`, `z * 0.5 * 2.0 = z`. -/
theorem C6_zoom_roundtrip (s : SampleLocation) :
    s.zoom_in.zoom_out.zoom = s.zoom := by
  simp only [SampleLocation.zoom_in, SampleLocation.zoom_out]
  ring

/-- Claim C7: with positive zoom and positive pan speed, `right` increases
`position.x` by exactly `zoom * move_speed`, `left` decreases it by the
same amount, `up` decreases `position.y` and `down` increases it; every
pan distance is the same `zoom * move_speed`, proportional to the current
zoom. -/
theorem C7_pan_directions (s : SampleLocation)
    (hz : 0 < s.zoom) (hm : 0 < s.move_speed) :
    s.right.position.x = s.position.x + s.zoom * s.move_speed ∧
    s.left.position.x = s.position.x - s.zoom * s.move_speed ∧
    s.up.position.y = s.position.y - s.zoom * s.move_speed ∧
    s.down.position.y = s.position.y + s.zoom * s.move_speed ∧
    s.position.x < s.right.position.x ∧
    s.left.position.x < s.position.x ∧
    s.up.position.y < s.position.y ∧
    s.position.y < s.down.position.y := by
  have hzm : 0 < s.zoom * s.move_speed := mul_pos hz hm
  refine ⟨rfl, rfl, rfl, rfl, ?_, ?_, ?_, ?_⟩ <;>
    simp [SampleLocation.left, SampleLocation.right, SampleLocation.up,
      SampleLocation.down] <;> linarith

/-- Witness for C7 at the default state (zoom 1, pan speed 0.05). -/
theorem C7_pan_directions_witness :
    0 < SampleLocation.default.zoom ∧ 0 < SampleLocation.default.move_speed ∧
    (SampleLocation.default.right.position.x =
        SampleLocation.default.position.x +
          SampleLocation.default.zoom * SampleLocation.default.move_speed ∧
     SampleLocation.default.left.position.x =
        SampleLocation.default.position.x -
          SampleLocation.default.zoom * SampleLocation.default.move_speed ∧
     SampleLocation.default.up.position.y =
        SampleLocation.default.position.y -
          SampleLocation.default.zoom * SampleLocation.default.move_speed ∧
     SampleLocation.default.down.position.y =
        SampleLocation.default.position.y +
          SampleLocation.default.zoom * SampleLocation.default.move_speed ∧
     SampleLocation.default.position.x < SampleLocation.default.right.position.x ∧
     SampleLocation.default.left.position.x < SampleLocation.default.position.x ∧
     SampleLocation.default.up.position.y < SampleLocation.default.position.y ∧
     SampleLocation.default.position.y < SampleLocation.default.down.position.y) :=
  ⟨by norm_num [SampleLocation.default], by norm_num [SampleLocation.default],
   C7_pan_directions SampleLocation.default
     (by norm_num [SampleLocation.default])
     (by norm_num [SampleLocation.default])⟩

/-- Claim C3: in every frame whose surface acquisition succeeds, the queue
after the frame is the queue before it extended by exactly the compute
pass writing the output texture followed by the render pass reading that
same texture — so the compute submission comes strictly before the render
submission, and among the frame's submissions the compute pass is the only
writer of the output texture. -/
theorem C3_compute_submitted_before_render (app app' : App)
    (h : app.redrawRequested (Except.ok ()) = PanicOr.ok app') :
    ∃ g : Nat × Nat,
      app'.gpu.queue = app.gpu.queue ++
        [Submission.computePass app.computer.output_texture g
           (app.sample_location.to_mandlebrot_params 180) mandelbrotParamsSize,
         Submission.renderPass app.computer.output_texture] ∧
      List.filter (fun s => s.writesTo app.computer.output_texture)
        [Submission.computePass app.computer.output_texture g
           (app.sample_location.to_mandlebrot_params 180) mandelbrotParamsSize,
         Submission.renderPass app.computer.output_texture] =
        [Submission.computePass app.computer.output_texture g
           (app.sample_location.to_mandlebrot_params 180) mandelbrotParamsSize] := by
  simp only [App.redrawRequested, Computer.run, Renderer.render] at h
  cases h
  exact ⟨compute_work_group_count (app.computer.texture_size.x, app.computer.texture_size.y) (16, 16),
    by simp, by simp [Submission.writesTo]⟩

/-- Witness for C3: one successful frame from the startup state enqueues
the compute pass writing texture 0 and then the render pass reading it. -/
theorem C3_compute_submitted_before_render_witness :
    (App.new { x := 1024, y := 1024 }).redrawRequested (Except.ok ()) =
      PanicOr.ok
        { gpu :=
            { size := { x := 1024, y := 1024 }, configWidth := 1024,
              configHeight := 1024, configureCount := 0,
              queue :=
                [Submission.computePass 0 (64, 64)
                   (SampleLocation.default.to_mandlebrot_params 180) 20,
                 Submission.renderPass 0] },
          computer := Computer.new { x := 1024, y := 1024 },
          renderer := Renderer.new { x := 1024, y := 1024 },
          sample_location := SampleLocation.default } ∧
    (∃ g : Nat × Nat,
      ({ gpu :=
            { size := { x := 1024, y := 1024 }, configWidth := 1024,
              configHeight := 1024, configureCount := 0,
              queue :=
                [Submission.computePass 0 (64, 64)
                   (SampleLocation.default.to_mandlebrot_params 180) 20,
                 Submission.renderPass 0] },
          computer := Computer.new { x := 1024, y := 1024 },
          renderer := Renderer.new { x := 1024, y := 1024 },
          sample_location := SampleLocation.default } : App).gpu.queue =
        (App.new { x := 1024, y := 1024 }).gpu.queue ++
          [Submission.computePass
             (App.new { x := 1024, y := 1024 }).computer.output_texture g
             ((App.new { x := 1024, y := 1024 }).sample_location.to_mandlebrot_params 180)
             mandelbrotParamsSize,
           Submission.renderPass
             (App.new { x := 1024, y := 1024 }).computer.output_texture] ∧
      List.filter
          (fun s => s.writesTo (App.new { x := 1024, y := 1024 }).computer.output_texture)
          [Submission.computePass
             (App.new { x := 1024, y := 1024 }).computer.output_texture g
             ((App.new { x := 1024, y := 1024 }).sample_location.to_mandlebrot_params 180)
             mandelbrotParamsSize,
           Submission.renderPass
             (App.new { x := 1024, y := 1024 }).computer.output_texture] =
        [Submission.computePass
           (App.new { x := 1024, y := 1024 }).computer.output_texture g
           ((App.new { x := 1024, y := 1024 }).sample_location.to_mandlebrot_params 180)
           mandelbrotParamsSize]) :=
  ⟨rfl, C3_compute_submitted_before_render _ _ rfl⟩

/-- Claim C4 concerns `Renderer::render` on surface-acquisition failure:
the source line `gpu.surface.get_current_texture().unwrap()` panics on any
acquisition error, so the failure is never returned to the caller as a
tagged `Err` — the per-frame error match in `main.rs` (reconfigure on
`Lost`, exit on `OutOfMemory`) is unreachable.  This theorem evaluates the
code at the failing input `SurfaceError::Lost`. -/
theorem C4_render_panics_on_acquisition_failure :
    (Renderer.new { x := 1024, y := 1024 }).render
        (GPUInterface.new { x := 1024, y := 1024 })
        (Except.error SurfaceError.Lost) 0 =
      PanicOr.panicked ∧
    (Renderer.new { x := 1024, y := 1024 }).render
        (GPUInterface.new { x := 1024, y := 1024 })
        (Except.error SurfaceError.OutOfMemory) 0 =
      PanicOr.panicked :=
  ⟨rfl, rfl⟩

/-- Claim C8: a resize event with a zero dimension leaves the whole
application state — stored renderer size, GPU surface configuration, and
the computer's output image — unchanged; with both dimensions positive it
reconfigures the surface to the new dimensions, updates the stored sizes,
and still leaves the computer untouched. -/
theorem C8_resize_behavior (app : App) (ns : UVec2) :
    ((ns.x = 0 ∨ ns.y = 0) → app.stepOp (AppOp.resized ns) = app) ∧
    (0 < ns.x → 0 < ns.y →
      (app.stepOp (AppOp.resized ns)).renderer.size = ns ∧
      (app.stepOp (AppOp.resized ns)).gpu.size = ns ∧
      (app.stepOp (AppOp.resized ns)).gpu.configWidth = ns.x ∧
      (app.stepOp (AppOp.resized ns)).gpu.configHeight = ns.y ∧
      (app.stepOp (AppOp.resized ns)).gpu.configureCount =
        app.gpu.configureCount + 1 ∧
      (app.stepOp (AppOp.resized ns)).computer = app.computer) := by
  constructor
  · rintro (h | h) <;> simp [App.stepOp, Renderer.resize, h]
  · intro hx hy
    simp [App.stepOp, Renderer.resize, hx, hy]

/-- Witness for C8: resizing to 0×768 is a no-op on the startup state;
resizing to 800×600 updates the stored sizes and surface configuration and
leaves the computer unchanged. -/
theorem C8_resize_behavior_witness :
    ((App.new { x := 1024, y := 1024 }).stepOp (AppOp.resized { x := 0, y := 768 }) =
      App.new { x := 1024, y := 1024 }) ∧
    (0 : Nat) < 800 ∧ (0 : Nat) < 600 ∧
    (((App.new { x := 1024, y := 1024 }).stepOp
          (AppOp.resized { x := 800, y := 600 })).renderer.size =
        { x := 800, y := 600 } ∧
     ((App.new { x := 1024, y := 1024 }).stepOp
          (AppOp.resized { x := 800, y := 600 })).gpu.size =
        { x := 800, y := 600 } ∧
     ((App.new { x := 1024, y := 1024 }).stepOp
          (AppOp.resized { x := 800, y := 600 })).gpu.configWidth = 800 ∧
     ((App.new { x := 1024, y := 1024 }).stepOp
          (AppOp.resized { x := 800, y := 600 })).gpu.configHeight = 600 ∧
     ((App.new { x := 1024, y := 1024 }).stepOp
          (AppOp.resized { x := 800, y := 600 })).gpu.configureCount =
        (App.new { x := 1024, y := 1024 }).gpu.configureCount + 1 ∧
     ((App.new { x := 1024, y := 1024 }).stepOp
          (AppOp.resized { x := 800, y := 600 })).computer =
        (App.new { x := 1024, y := 1024 }).computer) :=
  ⟨(C8_resize_behavior (App.new { x := 1024, y := 1024 }) { x := 0, y := 768 }).1
      (Or.inl rfl),
   by norm_num, by norm_num,
   (C8_resize_behavior (App.new { x := 1024, y := 1024 }) { x := 800, y := 600 }).2
      (by norm_num) (by norm_num)⟩

/-- Claim C9: the uniform parameter block `Computer::run` builds from
`MandelbrotParams` under `repr(C)` is exactly 20 bytes: five 4-byte fields
at contiguous offsets 0,4,8,12,16, in the order
x_min, x_max, y_min, y_max, max_iterations, the first four `f32` and the
last `i32`, with no padding (the field sizes sum to the struct size), and
`Computer::run` submits the compute pass with this 20-byte block. -/
theorem C9_params_block_layout :
    mandelbrotParamsSize = 20 ∧
    reprCOffsets 0 mandelbrotParamsFields = [0, 4, 8, 12, 16] ∧
    mandelbrotParamsFields.map FieldDesc.name =
      ["x_min", "x_max", "y_min", "y_max", "max_iterations"] ∧
    mandelbrotParamsFields.map FieldDesc.ty =
      [ScalarTy.f32, ScalarTy.f32, ScalarTy.f32, ScalarTy.f32, ScalarTy.i32] ∧
    (mandelbrotParamsFields.map (fun f => f.ty.size)).sum = mandelbrotParamsSize ∧
    ∀ (c : Computer) (gpu : GPUInterface) (p : MandelbrotParams),
      ((c.run gpu p).1).queue = gpu.queue ++
        [Submission.computePass c.output_texture
           (compute_work_group_count (c.texture_size.x, c.texture_size.y) (16, 16))
           p 20] :=
  ⟨rfl, rfl, rfl, rfl, rfl, fun _c _gpu _p => rfl⟩

theorem stepOp_computer_eq (app : App) (op : AppOp) :
    (app.stepOp op).computer = app.computer := by
  cases op with
  | key k => cases k <;> rfl
  | resized ns => rfl
  | redraw b => cases b <;> rfl

theorem runOps_computer_eq (ops : List AppOp) :
    ∀ app : App, (app.runOps ops).computer = app.computer := by
  induction ops with
  | nil => intro app; rfl
  | cons op ops ih =>
    intro app
    calc ((app.stepOp op).runOps ops).computer = (app.stepOp op).computer := ih _
      _ = app.computer := stepOp_computer_eq app op

/-- Claim C10: the computer's output texture and stored `texture_size` are
those set by `Computer::new` and are never modified by any later event —
key presses, window resizes (which touch only the renderer and the GPU
surface configuration) or frames — so every later `Computer::run` submits
its compute pass with the dispatch grid computed from the startup
dimensions, not the current window dimensions. -/
theorem C10_output_texture_fixed_at_construction (size : UVec2)
    (ops : List AppOp) (gpu : GPUInterface) (p : MandelbrotParams) :
    ((App.new size).runOps ops).computer = Computer.new size ∧
    ((App.new size).runOps ops).computer.texture_size = size ∧
    (Computer.run ((App.new size).runOps ops).computer gpu p).1.queue =
      gpu.queue ++
        [Submission.computePass 0 (compute_work_group_count (size.x, size.y) (16, 16))
           p mandelbrotParamsSize] := by
  have h : ((App.new size).runOps ops).computer = Computer.new size :=
    runOps_computer_eq ops (App.new size)
  exact ⟨h, by rw [h]; rfl, by rw [h]; rfl⟩
